import Mathlib

/-!
Verification development for the SentryVision camera/alert pipeline.

Shallow embedding of the alert-dispatch engine (`main.py`,
`alert_processor_thread` and friends) and of the per-camera capture loop
(`camera_processor.py`, `CameraProcessor.run`).  Python floats that only
ever hold timestamps/confidences are modelled as rationals; Python dicts
used as throttle maps become association lists with the same
`get(key, 0)` / assignment semantics; the bounded `queue.Queue` becomes a
list with a capacity-checked non-blocking put.
-/

namespace SentryVision

/-- The configuration constants of `config.py` that the core pipeline
reads (`Config` class). -/
structure Config where
  PERSON_CLASS_NAME : String
  ALERT_INTERVAL_SECONDS : ℚ
  MAIL_ALERT_INTERVAL_SECONDS : ℚ
  MAX_ALERT_HISTORY : Nat
  PRIMARY_THREAT_CLASSES : List String
  MAIL_ENABLED : Bool
  MAIL_USERNAME : Option String
  MAIL_PASSWORD : Option String
deriving DecidableEq

/-- The default values from `config.py` (`Config` class body). -/
def defaultConfig : Config :=
  { PERSON_CLASS_NAME := "person"
    ALERT_INTERVAL_SECONDS := 2
    MAIL_ALERT_INTERVAL_SECONDS := 60
    MAX_ALERT_HISTORY := 50
    PRIMARY_THREAT_CLASSES :=
      ["bottle", "gun", "knife", "weapon", "explosive", "bomb", "bat", "machete",
       "sword", "axe", "spear", "wood", "stick", "bludgeon", "club",
       "brass knuckles", "nunchaku", "katana", "scimitar", "swordfish",
       "machete", "crossbow", "slingshot", "boomerang", "scimitar"]
    MAIL_ENABLED := false
    MAIL_USERNAME := none
    MAIL_PASSWORD := none }

/-- One detection as returned by `ThreatDetector.detect`
(`camera_processor.py`, the dict appended in `detect`): class name
(`class` in Python, renamed here because `class` is a Lean keyword),
confidence, primary-threat flag and bounding box. -/
structure Detection where
  className : String
  confidence : ℚ
  is_primary_threat : Bool
  bbox : List ℚ
deriving DecidableEq

/-- The dict a `CameraProcessor` puts on `alert_queue`
(`camera_processor.py` lines 194-202): the detection fields plus
`camera_id`, `timestamp` and `snapshot_file`. -/
structure DetectionData where
  className : String
  confidence : ℚ
  is_primary_threat : Bool
  bbox : List ℚ
  camera_id : Nat
  timestamp : ℚ
  snapshot_file : Option String
deriving DecidableEq

/-- Stand-in for `time.strftime("%Y-%m-%d %H:%M:%S", time.localtime(t))`:
a pure formatting of the timestamp (the exact wall-clock rendering is
environment-dependent and irrelevant to every claim; only that the string
is derived from the timestamp matters). -/
def timestampStr (t : ℚ) : String := toString t

/-- The `alert_data` dict built by `alert_processor_thread`
(`main.py` lines 219-228). -/
structure AlertData where
  alert_type : String
  className : String
  confidence : ℚ
  timestamp : ℚ
  timestamp_str : String
  camera_id : Nat
  bbox : List ℚ
  snapshot_file : Option String
deriving DecidableEq

/-- `alert_data` as built in `main.py` lines 219-228 from the dequeued
`detection_data` and the computed `alert_type`. -/
def mkAlertData (alert_type : String) (d : DetectionData) : AlertData :=
  { alert_type := alert_type
    className := d.className
    confidence := d.confidence
    timestamp := d.timestamp
    timestamp_str := timestampStr d.timestamp
    camera_id := d.camera_id
    bbox := d.bbox
    snapshot_file := d.snapshot_file }

/-- A Python value as it appears in the `alert_data` dict, for modelling
the dict/JSON payload sent over MQTT. -/
inductive PyVal where
  | s (v : String)
  | q (v : ℚ)
  | arr (v : List ℚ)
  | opt (v : Option String)
  | n (v : Nat)
deriving DecidableEq

/-- The `alert_data` dict viewed as a key/value list, with the keys in the
order they are written in `main.py` lines 219-228. -/
def alertDataDict (a : AlertData) : List (String × PyVal) :=
  [("alert_type", PyVal.s a.alert_type),
   ("class", PyVal.s a.className),
   ("confidence", PyVal.q a.confidence),
   ("timestamp", PyVal.q a.timestamp),
   ("timestamp_str", PyVal.s a.timestamp_str),
   ("camera_id", PyVal.n a.camera_id),
   ("bbox", PyVal.arr a.bbox),
   ("snapshot_file", PyVal.opt a.snapshot_file)]

/-- The MQTT payload built in `main.py` lines 239-241:
`mqtt_payload = alert_data.copy()` followed by
`del mqtt_payload['timestamp']`. -/
def mqtt_payload (a : AlertData) : List (String × PyVal) :=
  (alertDataDict a).filter (fun p => p.1 ≠ "timestamp")

/-- Python `dict.get(key, 0)` on a throttle map
(`last_alert_time_local.get(alert_key, 0)` and
`last_email_sent_time.get(alert_key, 0)` in `main.py`). -/
def tGet (m : List ((Nat × String) × ℚ)) (k : Nat × String) : ℚ :=
  match m.find? (fun p => p.1 == k) with
  | some p => p.2
  | none => 0

/-- Python dict assignment `m[key] = v` on a throttle map. -/
def tSet (m : List ((Nat × String) × ℚ)) (k : Nat × String) (v : ℚ) :
    List ((Nat × String) × ℚ) :=
  (k, v) :: m.eraseP (fun p => p.1 == k)

/-- `alert_history.insert(0, a)` followed by
`alert_history = alert_history[:cap]` (`main.py` lines 232-233). -/
def histInsert (cap : Nat) (h : List AlertData) (a : AlertData) : List AlertData :=
  (a :: h).take cap

/-- The mutable state read and written by one pass of the dispatcher loop
body: the two throttle maps, the alert history and the security-mode flag
(`main.py` globals `last_email_sent_time`, `alert_history`,
`is_full_security_mode`, and the loop-local `last_alert_time_local`). -/
structure ProcState where
  last_alert_time_local : List ((Nat × String) × ℚ)
  last_email_sent_time : List ((Nat × String) × ℚ)
  alert_history : List AlertData
  is_full_security_mode : Bool
deriving DecidableEq

/-- The initial dispatcher state: empty maps, empty history, Standard
mode (`is_full_security_mode = False` at module load). -/
def procInit : ProcState :=
  { last_alert_time_local := []
    last_email_sent_time := []
    alert_history := []
    is_full_security_mode := false }

/-- The alert-condition classification of `main.py` lines 190-197:
`Threat Detected` for a primary threat regardless of mode, otherwise
`Motion Detected (Person)` when the mode is Full and the class is the
configured person class, otherwise no alert. -/
def classifyAlert (cfg : Config) (modeFull : Bool) (d : DetectionData) : Option String :=
  if d.is_primary_threat then some "Threat Detected"
  else if modeFull && (d.className == cfg.PERSON_CLASS_NAME) then
    some "Motion Detected (Person)"
  else none

/-- Everything one pass of the dispatcher loop produces: the new state,
whether a history entry was inserted, the payload published to MQTT (if
any), and whether an email send was triggered. -/
structure StepOut where
  state : ProcState
  insertedHistory : Bool
  publishedPayload : Option (List (String × PyVal))
  emailTriggered : Bool
deriving DecidableEq

/-- One pass of the dispatcher loop body over a dequeued event
(`main.py` lines 178-258): read the mode, classify, apply the dispatch
throttle, build `alert_data`, insert into history, publish to MQTT when a
client is configured and connected, and apply the email throttle.
`mqttConnected` models `mqtt_client and mqtt_client.is_connected()`; a
publish failure is swallowed by the `try/except` in the source and so has
no representation in the state. -/
def processEvent (cfg : Config) (mqttConnected : Bool) (st : ProcState)
    (d : DetectionData) : StepOut :=
  let current_time := d.timestamp
  let alert_key := (d.camera_id, d.className)
  match classifyAlert cfg st.is_full_security_mode d with
  | none => ⟨st, false, none, false⟩
  | some alert_type =>
    let last_occurrence := tGet st.last_alert_time_local alert_key
    if current_time - last_occurrence < cfg.ALERT_INTERVAL_SECONDS then
      ⟨st, false, none, false⟩
    else
      let st1 := { st with
        last_alert_time_local := tSet st.last_alert_time_local alert_key current_time }
      let alert_data := mkAlertData alert_type d
      let st2 := { st1 with
        alert_history := histInsert cfg.MAX_ALERT_HISTORY st1.alert_history alert_data }
      let payload := if mqttConnected then some (mqtt_payload alert_data) else none
      let last_email_time := tGet st2.last_email_sent_time alert_key
      if cfg.MAIL_ALERT_INTERVAL_SECONDS ≤ current_time - last_email_time then
        ⟨{ st2 with
            last_email_sent_time := tSet st2.last_email_sent_time alert_key current_time },
          true, payload, true⟩
      else
        ⟨st2, true, payload, false⟩

/-- The dispatcher loop over a FIFO sequence of dequeued events,
returning the final state and the per-event outcomes in order. -/
def runDispatcher (cfg : Config) (mqttConnected : Bool) :
    ProcState → List DetectionData → ProcState × List StepOut
  | st, [] => (st, [])
  | st, d :: ds =>
    let out := processEvent cfg mqttConnected st d
    let rest := runDispatcher cfg mqttConnected out.state ds
    (rest.1, out :: rest.2)

/-- `send_alert_email` (`main.py` lines 106-163): returns `False` when
mail is disabled or no recipient is set, or when the SMTP credentials are
missing; otherwise the outcome is that of the SMTP session, modelled by
the `smtpOk` parameter.  The alert content does not influence success. -/
def send_alert_email (cfg : Config) (recipient : Option String)
    (a : AlertData) (smtpOk : Bool) : Bool :=
  if !cfg.MAIL_ENABLED || recipient.isNone then false
  else if cfg.MAIL_USERNAME.isNone || cfg.MAIL_PASSWORD.isNone then false
  else smtpOk

/-! ## Camera worker (`camera_processor.py`, `CameraProcessor.run`) -/

/-- `alert_queue = queue.Queue(maxsize=100)` (`main.py` line 42). -/
def ALERT_QUEUE_MAXSIZE : Nat := 100

/-- `alert_queue.put(detection_data, block=False)` with the `queue.Full`
exception silently swallowed (`camera_processor.py` lines 201-206): if
the queue is below capacity the event is appended (FIFO), otherwise the
queue is left unchanged. -/
def queuePut (maxsize : Nat) (q : List DetectionData) (d : DetectionData) :
    List DetectionData :=
  if q.length < maxsize then q ++ [d] else q

/-- The interesting-detection test of `camera_processor.py` lines
175-176: primary threat OR person class, with no reference to the
security mode (the camera worker has no access to the mode at all). -/
def is_interesting (cfg : Config) (d : Detection) : Bool :=
  d.is_primary_threat || (d.className == cfg.PERSON_CLASS_NAME)

/-- The snapshot file name
`f"cam{camera_id}_{timestamp_str}_{class}.jpg"`
(`camera_processor.py` line 183). -/
def snapshot_filename (camera_id : Nat) (timestamp_str : String)
    (cls : String) : String :=
  "cam" ++ toString camera_id ++ "_" ++ timestamp_str ++ "_" ++ cls ++ ".jpg"

/-- Per-detection processing inside the detection branch
(`camera_processor.py` lines 173-198): decide interestingness, attempt
the snapshot when interesting (`snapshotSaveOk` models whether
`cv2.imwrite` succeeds; on failure the filename stays `None`), and build
the `detection_data` dict destined for the queue. -/
def mkDetectionData (cfg : Config) (camera_id : Nat) (t : ℚ) (tstr : String)
    (snapshotSaveOk : Bool) (d : Detection) : DetectionData :=
  let snap :=
    if is_interesting cfg d then
      if snapshotSaveOk then some (snapshot_filename camera_id tstr d.className)
      else none
    else none
  { className := d.className
    confidence := d.confidence
    is_primary_threat := d.is_primary_threat
    bbox := d.bbox
    camera_id := camera_id
    timestamp := t
    snapshot_file := snap }

/-- The environment's contribution to one successfully captured frame:
the raw frame and what the detector would return for it (annotated frame
and detections, each paired with the success of its snapshot write), plus
the capture timestamp `time.time()` and its formatted form. Frames are
abstract ids (`Nat`). -/
structure CaptureInput where
  raw : Nat
  annotated : Nat
  detections : List (Detection × Bool)
  t : ℚ
  tstr : String
deriving DecidableEq

/-- Python dict read `frame_dict.get(camera_id)`. -/
def dGet (m : List (Nat × Nat)) (k : Nat) : Option Nat :=
  match m.find? (fun p => p.1 == k) with
  | some p => some p.2
  | none => none

/-- Python dict assignment `frame_dict[camera_id] = frame`
(`camera_processor.py` line 213): replaces any prior value for the key. -/
def dSet (m : List (Nat × Nat)) (k : Nat) (v : Nat) : List (Nat × Nat) :=
  (k, v) :: m.eraseP (fun p => p.1 == k)

/-- The camera worker state threaded through successful capture cycles:
the per-worker frame counter (`self.frame_count`, initially 0), the
shared alert queue and the shared latest-frame dict. -/
structure CamStreamState where
  frame_count : Nat
  queue : List DetectionData
  frame_dict : List (Nat × Nat)
deriving DecidableEq

/-- One successful capture cycle (`camera_processor.py` lines 142-213):
increment the frame counter, decide via the frame-skip rule whether
detection runs (`not enable_frame_skipping or count % N == 0`), on a
detection cycle offer every detection to the queue and designate the
annotated frame for the stream, otherwise designate the raw frame; in
both cases write the designated frame into the shared dict under the
worker's camera id.  Returns the new state and whether detection ran. -/
def camFrameStep (cfg : Config) (camera_id : Nat)
    (enable_frame_skipping : Bool) (detect_every_n_frames : Nat)
    (maxsize : Nat) (st : CamStreamState) (inp : CaptureInput) :
    CamStreamState × Bool :=
  let frame_count := st.frame_count + 1
  let run_detection := !enable_frame_skipping ||
    (frame_count % detect_every_n_frames == 0)
  if run_detection then
    let q := inp.detections.foldl
      (fun q db => queuePut maxsize q
        (mkDetectionData cfg camera_id inp.t inp.tstr db.2 db.1)) st.queue
    (⟨frame_count, q, dSet st.frame_dict camera_id inp.annotated⟩, true)
  else
    (⟨frame_count, st.queue, dSet st.frame_dict camera_id inp.raw⟩, false)

/-- The worker's run over a list of successfully captured frames: the
trace of (state after the cycle, whether detection ran), in order. -/
def camTrace (cfg : Config) (camera_id : Nat) (enable_frame_skipping : Bool)
    (detect_every_n_frames : Nat) (maxsize : Nat) :
    CamStreamState → List CaptureInput → List (CamStreamState × Bool)
  | _, [] => []
  | st, i :: is =>
    let out := camFrameStep cfg camera_id enable_frame_skipping
      detect_every_n_frames maxsize st i
    out :: camTrace cfg camera_id enable_frame_skipping
      detect_every_n_frames maxsize out.1 is

/-! ## Camera worker retry loop (`camera_processor.py` lines 110-239) -/

/-- The environment outcome of one iteration of the `while self.running`
loop: the camera open attempt fails, the frame read fails, a frame is
captured and processed normally, or an unexpected exception is raised
somewhere in the body (the `except Exception` branch). -/
inductive CamEvent where
  | openFail
  | readFail
  | frameOk (inp : CaptureInput)
  | bodyError
deriving DecidableEq

/-- `retry_delay = 5` (`camera_processor.py` line 114). -/
def retry_delay : ℚ := 5

/-- The connection-level per-worker state: the `self.running` flag and
whether `self.cap` is a live opened capture (`None`/closed is `false`). -/
structure CamLoopState where
  running : Bool
  capOpen : Bool
deriving DecidableEq

/-- One iteration of the retry loop (`camera_processor.py` lines
116-232), given the environment outcome.  Every failure branch releases
the capture (`self.cap = None`) and sleeps: `retry_delay` for a failed
open (line 128) or a failed read (line 139), `retry_delay * 2` after an
unexpected exception (line 232).  A successful frame leaves the capture
open and sleeps `0.01` (line 216).  No branch touches `self.running` or
raises: the `except Exception` handler swallows everything.  Returns the
new state and the sleep before the next iteration. -/
def camLoopStep (st : CamLoopState) (ev : CamEvent) : CamLoopState × ℚ :=
  match ev with
  | CamEvent.openFail => ({ st with capOpen := false }, retry_delay)
  | CamEvent.readFail => ({ st with capOpen := false }, retry_delay)
  | CamEvent.frameOk _ => ({ st with capOpen := true }, 1 / 100)
  | CamEvent.bodyError => ({ st with capOpen := false }, retry_delay * 2)

/-- Folding the retry loop over a sequence of environment outcomes:
final state plus the sleeps taken, in order. -/
def camLoopRun : CamLoopState → List CamEvent → CamLoopState × List ℚ
  | st, [] => (st, [])
  | st, ev :: evs =>
    let out := camLoopStep st ev
    let rest := camLoopRun out.1 evs
    (rest.1, out.2 :: rest.2)

/-- A permanently failing source produces only failure outcomes. -/
def isFailureEvent : CamEvent → Bool
  | CamEvent.openFail => true
  | CamEvent.readFail => true
  | CamEvent.bodyError => true
  | CamEvent.frameOk _ => false

/-- The sleep the loop takes after each failure outcome. -/
def failureDelay : CamEvent → ℚ
  | CamEvent.bodyError => retry_delay * 2
  | _ => retry_delay

/-! ## Concrete events and helper lemmas -/

/-- A primary-threat detection event (camera 0, class `knife`) captured
at time `t`, as a camera worker would enqueue it. -/
def threatEvt (t : ℚ) : DetectionData :=
  { className := "knife", confidence := 1, is_primary_threat := true,
    bbox := [0, 0, 10, 10], camera_id := 0, timestamp := t,
    snapshot_file := none }

/-- A non-primary-threat person-class detection event (camera 0) captured
at time `t`. -/
def personEvt (t : ℚ) : DetectionData :=
  { className := "person", confidence := 1, is_primary_threat := false,
    bbox := [0, 0, 10, 10], camera_id := 0, timestamp := t,
    snapshot_file := none }

/-- The dispatcher state in Full security mode with empty maps/history. -/
def fullModeInit : ProcState :=
  { procInit with is_full_security_mode := true }

/-- A dispatcher state whose dispatch-throttle map last fired for
`(0, knife)` at t=100 (maps/history otherwise empty, Standard mode). -/
def stKnife100 : ProcState :=
  { last_alert_time_local := [((0, "knife"), (100 : ℚ))]
    last_email_sent_time := []
    alert_history := []
    is_full_security_mode := false }

/-- A dispatcher state whose dispatch- and email-throttle maps both last
fired for `(0, knife)` at t=100. -/
def stKnifeBoth100 : ProcState :=
  { last_alert_time_local := [((0, "knife"), (100 : ℚ))]
    last_email_sent_time := [((0, "knife"), (100 : ℚ))]
    alert_history := []
    is_full_security_mode := false }

/-- The per-cycle observables `camTrace` should produce when frame
skipping is enabled with factor `K`, starting from counter value `c`:
capture counts `c+1, c+2, …`, detection exactly on counts divisible by
`K`, and the stream-table entry for this camera being the annotated frame
on detection cycles and the raw frame otherwise. -/
def camExpected (camera_id K : Nat) (c : Nat) (inps : List CaptureInput) :
    List (Nat × Bool × Option Nat) :=
  ((List.range' (c + 1) inps.length).zip inps).map
    (fun ji => (ji.1, ji.1 % K == 0,
      some (if ji.1 % K == 0 then ji.2.annotated else ji.2.raw)))

/-- A sample alert record used to exercise the history fold. -/
def demoAlert (n : Nat) : AlertData :=
  { alert_type := "Threat Detected", className := "knife", confidence := 1,
    timestamp := (n : ℚ), timestamp_str := "", camera_id := 0, bbox := [],
    snapshot_file := none }

/-- Seven sample alert records (capacity 2 plus 5). -/
def demoAlerts : List AlertData :=
  [demoAlert 1, demoAlert 2, demoAlert 3, demoAlert 4, demoAlert 5,
   demoAlert 6, demoAlert 7]

/-- Five sample capture cycles (raw frame ids 1-5, annotated 101-105, no
detections). -/
def demoInps : List CaptureInput :=
  [⟨1, 101, [], 100, "ts"⟩, ⟨2, 102, [], 100, "ts"⟩, ⟨3, 103, [], 100, "ts"⟩,
   ⟨4, 104, [], 100, "ts"⟩, ⟨5, 105, [], 100, "ts"⟩]

/-- A sample non-primary-threat person detection. -/
def personDet : Detection :=
  { className := "person", confidence := 1, is_primary_threat := false,
    bbox := [] }

theorem tGet_tSet_self (m : List ((Nat × String) × ℚ)) (k : Nat × String)
    (v : ℚ) : tGet (tSet m k v) k = v := by
  simp [tGet, tSet, List.find?]

theorem processEvent_mode (cfg : Config) (mc : Bool) (st : ProcState)
    (d : DetectionData) :
    (processEvent cfg mc st d).state.is_full_security_mode =
      st.is_full_security_mode := by
  unfold processEvent
  cases classifyAlert cfg st.is_full_security_mode d
  · rfl
  · dsimp only
    split_ifs <;> rfl

/-- C1: for every dequeued event that passes classification, the
dispatcher compares the event's own capture timestamp against the
dispatch-throttle map's last-fired time for `(camera_id, class)`: within
the 2.0s interval the event is discarded entirely (state unchanged, no
history entry, no publish, no email) and the last-fired time is not
updated; otherwise the event's timestamp becomes the new last-fired time
and a history entry is produced.  For three same-key ThreatDetected
events at t=100, 101, 103 under the default 2.0s interval, the first and
third produce history entries and the second is discarded. -/
theorem C1_dispatch_throttle (cfg : Config) (mc : Bool) (st : ProcState)
    (d : DetectionData) (ty : String)
    (hclass : classifyAlert cfg st.is_full_security_mode d = some ty) :
    (d.timestamp - tGet st.last_alert_time_local (d.camera_id, d.className) <
        cfg.ALERT_INTERVAL_SECONDS →
      processEvent cfg mc st d = ⟨st, false, none, false⟩) ∧
    (¬ (d.timestamp - tGet st.last_alert_time_local (d.camera_id, d.className) <
        cfg.ALERT_INTERVAL_SECONDS) →
      (processEvent cfg mc st d).state.last_alert_time_local =
        tSet st.last_alert_time_local (d.camera_id, d.className) d.timestamp ∧
      (processEvent cfg mc st d).insertedHistory = true) ∧
    (runDispatcher defaultConfig false procInit
        [threatEvt 100, threatEvt 101, threatEvt 103]).2.map
          (fun o => o.insertedHistory) = [true, false, true] ∧
    (runDispatcher defaultConfig false procInit
        [threatEvt 100, threatEvt 101, threatEvt 103]).1.alert_history.length = 2 := by
  refine ⟨?_, ?_, ?_, ?_⟩
  · intro h
    simp [processEvent, hclass, h]
  · intro h
    simp only [processEvent, hclass]
    rw [if_neg h]
    constructor
    · split <;> rfl
    · split <;> rfl
  · norm_num [runDispatcher, processEvent, classifyAlert, threatEvt, tGet, tSet,
      histInsert, defaultConfig, procInit, List.find?, List.eraseP]
  · norm_num [runDispatcher, processEvent, classifyAlert, threatEvt, tGet, tSet,
      histInsert, defaultConfig, procInit, List.find?, List.eraseP]

/-- C2: the dispatcher classifies each dequeued event: primary threats
become `Threat Detected` regardless of mode; otherwise a person-class
event becomes `Motion Detected (Person)` exactly when the mode is Full;
any other event is discarded with no history entry and no sink delivery.
Concretely, a non-primary-threat person-class event is discarded under
Standard mode and produces a MotionPerson alert under Full mode. -/
theorem C2_classification (cfg : Config) (mc : Bool) (st : ProcState)
    (d : DetectionData) :
    (d.is_primary_threat = true →
      classifyAlert cfg st.is_full_security_mode d = some "Threat Detected") ∧
    (d.is_primary_threat = false → st.is_full_security_mode = true →
      d.className = cfg.PERSON_CLASS_NAME →
      classifyAlert cfg st.is_full_security_mode d =
        some "Motion Detected (Person)") ∧
    (d.is_primary_threat = false →
      (st.is_full_security_mode = false ∨ d.className ≠ cfg.PERSON_CLASS_NAME) →
      processEvent cfg mc st d = ⟨st, false, none, false⟩) ∧
    (processEvent defaultConfig false procInit (personEvt 100) =
      ⟨procInit, false, none, false⟩) ∧
    ((processEvent defaultConfig false fullModeInit (personEvt 100)).insertedHistory =
      true) ∧
    ((processEvent defaultConfig false fullModeInit
        (personEvt 100)).state.alert_history.map (fun a => a.alert_type) =
      ["Motion Detected (Person)"]) := by
  refine ⟨?_, ?_, ?_, ?_, ?_, ?_⟩
  · intro h
    simp [classifyAlert, h]
  · intro h1 h2 h3
    simp [classifyAlert, h1, h2, h3]
  · intro h1 h2
    have hc : classifyAlert cfg st.is_full_security_mode d = none := by
      rcases h2 with h2 | h2 <;> simp [classifyAlert, h1, h2]
    simp [processEvent, hc]
  · norm_num [processEvent, classifyAlert, personEvt, procInit, defaultConfig]
  · norm_num [processEvent, classifyAlert, personEvt, fullModeInit, procInit,
      defaultConfig, tGet, tSet, histInsert, mkAlertData, List.find?]
  · norm_num [processEvent, classifyAlert, personEvt, fullModeInit, procInit,
      defaultConfig, tGet, tSet, histInsert, mkAlertData, List.find?]

/-- C3: the email throttle is evaluated only for events that already
passed the dispatch throttle and independently of it: email is triggered
exactly when the event's timestamp is at least the email interval past
the email map's last-fired time for the key (updating that time);
otherwise email is skipped but the history entry is still produced.
Same-key events at t=100 and t=103 (dispatch interval 2, email interval
60) both enter history yet only the first triggers an email. -/
theorem C3_email_throttle (cfg : Config) (mc : Bool) (st : ProcState)
    (d : DetectionData) (ty : String)
    (hclass : classifyAlert cfg st.is_full_security_mode d = some ty)
    (hthr : ¬ (d.timestamp - tGet st.last_alert_time_local (d.camera_id, d.className) <
        cfg.ALERT_INTERVAL_SECONDS)) :
    (cfg.MAIL_ALERT_INTERVAL_SECONDS ≤
        d.timestamp - tGet st.last_email_sent_time (d.camera_id, d.className) →
      (processEvent cfg mc st d).emailTriggered = true ∧
      (processEvent cfg mc st d).state.last_email_sent_time =
        tSet st.last_email_sent_time (d.camera_id, d.className) d.timestamp) ∧
    (d.timestamp - tGet st.last_email_sent_time (d.camera_id, d.className) <
        cfg.MAIL_ALERT_INTERVAL_SECONDS →
      (processEvent cfg mc st d).emailTriggered = false ∧
      (processEvent cfg mc st d).state.last_email_sent_time =
        st.last_email_sent_time ∧
      (processEvent cfg mc st d).insertedHistory = true) ∧
    ((runDispatcher defaultConfig false procInit
        [threatEvt 100, threatEvt 103]).2.map (fun o => o.insertedHistory) =
      [true, true]) ∧
    ((runDispatcher defaultConfig false procInit
        [threatEvt 100, threatEvt 103]).2.map (fun o => o.emailTriggered) =
      [true, false]) := by
  refine ⟨?_, ?_, ?_, ?_⟩
  · intro h
    simp only [processEvent, hclass]
    rw [if_neg hthr]
    rw [if_pos h]
    exact ⟨rfl, rfl⟩
  · intro h
    simp only [processEvent, hclass]
    rw [if_neg hthr]
    rw [if_neg (not_le.mpr h)]
    exact ⟨rfl, rfl, rfl⟩
  · norm_num [runDispatcher, processEvent, classifyAlert, threatEvt, tGet, tSet,
      histInsert, defaultConfig, procInit, List.find?, List.eraseP]
  · norm_num [runDispatcher, processEvent, classifyAlert, threatEvt, tGet, tSet,
      histInsert, defaultConfig, procInit, List.find?, List.eraseP]

theorem histInsert_take (cap : Nat) (acc : List AlertData) (a : AlertData) :
    histInsert cap (acc.take cap) a = (a :: acc).take cap := by
  cases cap with
  | zero => simp [histInsert]
  | succ n =>
    simp only [histInsert, List.take_succ_cons, List.take_take]
    rw [Nat.min_eq_left (Nat.le_succ n)]

theorem foldl_histInsert (cap : Nat) (items : List AlertData) :
    ∀ acc : List AlertData,
      items.foldl (histInsert cap) (acc.take cap) =
        (items.reverse ++ acc).take cap := by
  induction items with
  | nil => intro acc; simp
  | cons a items ih =>
    intro acc
    rw [List.foldl_cons, histInsert_take, ih (a :: acc)]
    simp [List.append_assoc]

/-- C5: the alert history is newest-first and never exceeds the
configured capacity after any dispatcher step; each qualifying alert is
prepended at position 0 and the list truncated to capacity, so feeding
`capacity + 5` qualifying alerts through the insertion leaves exactly
`capacity` entries (newest first) with the 5 oldest evicted. -/
theorem C5_bounded_history (cfg : Config) (mc : Bool) (st : ProcState)
    (d : DetectionData) (ty : String) (cap : Nat) (items : List AlertData) :
    (st.alert_history.length ≤ cfg.MAX_ALERT_HISTORY →
      (processEvent cfg mc st d).state.alert_history.length ≤
        cfg.MAX_ALERT_HISTORY) ∧
    (classifyAlert cfg st.is_full_security_mode d = some ty →
      ¬ (d.timestamp - tGet st.last_alert_time_local (d.camera_id, d.className) <
          cfg.ALERT_INTERVAL_SECONDS) →
      (processEvent cfg mc st d).state.alert_history =
        (mkAlertData ty d :: st.alert_history).take cfg.MAX_ALERT_HISTORY) ∧
    (items.foldl (histInsert cap) [] = items.reverse.take cap) ∧
    (items.length = cap + 5 →
      (items.foldl (histInsert cap) []).length = cap ∧
      items.foldl (histInsert cap) [] = (items.drop 5).reverse) := by
  have hfold : items.foldl (histInsert cap) [] = items.reverse.take cap := by
    have := foldl_histInsert cap items []
    simpa using this
  refine ⟨?_, ?_, hfold, ?_⟩
  · intro hlen
    unfold processEvent
    cases classifyAlert cfg st.is_full_security_mode d
    · exact hlen
    · dsimp only
      split_ifs <;>
        simp_all [histInsert, List.length_take]
  · intro hclass hthr
    simp only [processEvent, hclass]
    rw [if_neg hthr]
    split_ifs <;> rfl
  · intro hlen
    have hrev5 : items.reverse.take cap = (items.drop 5).reverse := by
      have hsplit : items = items.take 5 ++ items.drop 5 :=
        (List.take_append_drop 5 items).symm
      calc items.reverse.take cap
          = ((items.take 5 ++ items.drop 5).reverse).take cap := by
            rw [← hsplit]
        _ = ((items.drop 5).reverse ++ (items.take 5).reverse).take cap := by
            rw [List.reverse_append]
        _ = (items.drop 5).reverse := by
            apply List.take_left'
            simp [List.length_reverse, List.length_drop, hlen]
    constructor
    · rw [hfold, List.length_take]
      simp [List.length_reverse, hlen]
    · rw [hfold, hrev5]

/-- C10: whenever an event passes the email-throttle check, the email
map's last-fired time for its key is set to the event's timestamp as part
of the dispatcher step, before and independently of any delivery attempt
(the send runs on a separate thread and its outcome never feeds back):
even when no email is actually sent (mail disabled, no recipient, missing
credentials, or SMTP failure), a subsequent same-key event within the
email interval is still email-suppressed. -/
theorem C10_email_time_not_rolled_back (cfg : Config) (mc : Bool)
    (st : ProcState) (d d2 : DetectionData) (ty : String) (a : AlertData)
    (recipient : Option String) (smtpOk : Bool)
    (hclass : classifyAlert cfg st.is_full_security_mode d = some ty)
    (hthr : ¬ (d.timestamp - tGet st.last_alert_time_local (d.camera_id, d.className) <
        cfg.ALERT_INTERVAL_SECONDS))
    (hemail : cfg.MAIL_ALERT_INTERVAL_SECONDS ≤
        d.timestamp - tGet st.last_email_sent_time (d.camera_id, d.className)) :
    ((processEvent cfg mc st d).state.last_email_sent_time =
      tSet st.last_email_sent_time (d.camera_id, d.className) d.timestamp) ∧
    ((processEvent cfg mc st d).emailTriggered = true) ∧
    (send_alert_email cfg none a smtpOk = false) ∧
    (cfg.MAIL_ENABLED = false → send_alert_email cfg recipient a smtpOk = false) ∧
    (cfg.MAIL_USERNAME = none → send_alert_email cfg recipient a smtpOk = false) ∧
    (∀ ty2 : String,
      d2.camera_id = d.camera_id → d2.className = d.className →
      classifyAlert cfg st.is_full_security_mode d2 = some ty2 →
      d2.timestamp - d.timestamp < cfg.MAIL_ALERT_INTERVAL_SECONDS →
      (processEvent cfg mc (processEvent cfg mc st d).state d2).emailTriggered =
        false) := by
  have hout : (processEvent cfg mc st d).state.last_email_sent_time =
      tSet st.last_email_sent_time (d.camera_id, d.className) d.timestamp ∧
      (processEvent cfg mc st d).emailTriggered = true := by
    simp only [processEvent, hclass]
    rw [if_neg hthr]
    rw [if_pos hemail]
    exact ⟨rfl, rfl⟩
  refine ⟨hout.1, hout.2, by simp [send_alert_email], ?_, ?_, ?_⟩
  · intro h
    simp [send_alert_email, h]
  · intro h
    cases recipient <;> simp [send_alert_email, h]
  · intro ty2 hcam hcls hclass2 hwin
    set st1 := (processEvent cfg mc st d).state with hst1
    have hmode : st1.is_full_security_mode = st.is_full_security_mode :=
      processEvent_mode cfg mc st d
    have hclass2' : classifyAlert cfg st1.is_full_security_mode d2 = some ty2 := by
      rw [hmode]; exact hclass2
    have hkey : (d2.camera_id, d2.className) = (d.camera_id, d.className) := by
      rw [hcam, hcls]
    have hget : tGet st1.last_email_sent_time (d2.camera_id, d2.className) =
        d.timestamp := by
      rw [hout.1, hkey, tGet_tSet_self]
    have hemail2 : ¬ (cfg.MAIL_ALERT_INTERVAL_SECONDS ≤
        d2.timestamp - tGet st1.last_email_sent_time (d2.camera_id, d2.className)) := by
      rw [hget]; exact not_le.mpr hwin
    simp only [processEvent, hclass2']
    split_ifs <;> rfl

theorem dGet_dSet_self (m : List (Nat × Nat)) (k v : Nat) :
    dGet (dSet m k v) k = some v := by
  simp [dGet, dSet, List.find?]

theorem camTrace_spec (cfg : Config) (camera_id K maxsize : Nat)
    (inps : List CaptureInput) :
    ∀ st : CamStreamState,
      (camTrace cfg camera_id true K maxsize st inps).map
        (fun o => (o.1.frame_count, o.2, dGet o.1.frame_dict camera_id)) =
      camExpected camera_id K st.frame_count inps := by
  induction inps with
  | nil => intro st; simp [camTrace, camExpected]
  | cons i is ih =>
    intro st
    cases h : ((st.frame_count + 1) % K == 0)
    · have hstep : camTrace cfg camera_id true K maxsize st (i :: is) =
          (⟨st.frame_count + 1, st.queue, dSet st.frame_dict camera_id i.raw⟩,
            false) ::
            camTrace cfg camera_id true K maxsize
              ⟨st.frame_count + 1, st.queue,
                dSet st.frame_dict camera_id i.raw⟩ is := by
        simp [camTrace, camFrameStep, h]
      rw [hstep, List.map_cons,
        ih ⟨st.frame_count + 1, st.queue, dSet st.frame_dict camera_id i.raw⟩]
      have h' : ¬ ((st.frame_count + 1) % K = 0) := by simpa using h
      simp [camExpected, List.range'_succ, dGet_dSet_self, h, h']
    · have hstep : camTrace cfg camera_id true K maxsize st (i :: is) =
          (⟨st.frame_count + 1,
              i.detections.foldl
                (fun q db => queuePut maxsize q
                  (mkDetectionData cfg camera_id i.t i.tstr db.2 db.1)) st.queue,
              dSet st.frame_dict camera_id i.annotated⟩, true) ::
            camTrace cfg camera_id true K maxsize
              ⟨st.frame_count + 1,
                i.detections.foldl
                  (fun q db => queuePut maxsize q
                    (mkDetectionData cfg camera_id i.t i.tstr db.2 db.1)) st.queue,
                dSet st.frame_dict camera_id i.annotated⟩ is := by
        simp [camTrace, camFrameStep, h]
      rw [hstep, List.map_cons,
        ih ⟨st.frame_count + 1,
          i.detections.foldl
            (fun q db => queuePut maxsize q
              (mkDetectionData cfg camera_id i.t i.tstr db.2 db.1)) st.queue,
          dSet st.frame_dict camera_id i.annotated⟩]
      have h' : (st.frame_count + 1) % K = 0 := by simpa using h
      simp [camExpected, List.range'_succ, dGet_dSet_self, h, h']

theorem camTrace_detection_count (cfg : Config) (camera_id K maxsize : Nat)
    (inps : List CaptureInput) :
    ∀ st : CamStreamState,
      st.frame_count / K +
        (camTrace cfg camera_id true K maxsize st inps).countP (fun o => o.2) =
      (st.frame_count + inps.length) / K := by
  induction inps with
  | nil => intro st; simp [camTrace]
  | cons i is ih =>
    intro st
    have hassoc : st.frame_count + (i :: is).length =
        (st.frame_count + 1) + is.length := by
      simp [List.length_cons]; omega
    rw [hassoc]
    cases h : ((st.frame_count + 1) % K == 0)
    · have hndvd : ¬ K ∣ (st.frame_count + 1) := by
        rw [Nat.dvd_iff_mod_eq_zero]
        simpa using h
      have hstep : camTrace cfg camera_id true K maxsize st (i :: is) =
          (⟨st.frame_count + 1, st.queue, dSet st.frame_dict camera_id i.raw⟩,
            false) ::
            camTrace cfg camera_id true K maxsize
              ⟨st.frame_count + 1, st.queue,
                dSet st.frame_dict camera_id i.raw⟩ is := by
        simp [camTrace, camFrameStep, h]
      rw [hstep, List.countP_cons]
      have hrec := ih ⟨st.frame_count + 1, st.queue,
        dSet st.frame_dict camera_id i.raw⟩
      rw [Nat.succ_div_of_not_dvd hndvd] at hrec
      simpa using hrec
    · have hdvd : K ∣ (st.frame_count + 1) := by
        rw [Nat.dvd_iff_mod_eq_zero]
        simpa using h
      have hstep : camTrace cfg camera_id true K maxsize st (i :: is) =
          (⟨st.frame_count + 1,
              i.detections.foldl
                (fun q db => queuePut maxsize q
                  (mkDetectionData cfg camera_id i.t i.tstr db.2 db.1)) st.queue,
              dSet st.frame_dict camera_id i.annotated⟩, true) ::
            camTrace cfg camera_id true K maxsize
              ⟨st.frame_count + 1,
                i.detections.foldl
                  (fun q db => queuePut maxsize q
                    (mkDetectionData cfg camera_id i.t i.tstr db.2 db.1)) st.queue,
                dSet st.frame_dict camera_id i.annotated⟩ is := by
        simp [camTrace, camFrameStep, h]
      rw [hstep, List.countP_cons]
      have hrec := ih ⟨st.frame_count + 1,
        i.detections.foldl
          (fun q db => queuePut maxsize q
            (mkDetectionData cfg camera_id i.t i.tstr db.2 db.1)) st.queue,
        dSet st.frame_dict camera_id i.annotated⟩
      rw [Nat.succ_div_of_dvd hdvd] at hrec
      simp only [if_pos rfl] at hrec ⊢
      simp at hrec ⊢
      omega

/-- C4: with frame skipping enabled and factor `K`, the per-worker frame
counter starts at 1 and detection runs exactly on the frames whose
capture count is divisible by `K`, i.e. on exactly `⌊M/K⌋` of `M`
captured frames; on detection cycles the frame written to the shared
stream table under the worker's camera id is the detector's annotated
frame and on all other cycles the raw captured frame, each write
replacing the prior value for that key. -/
theorem C4_frame_skip (cfg : Config) (camera_id K maxsize : Nat)
    (q0 : List DetectionData) (fd0 : List (Nat × Nat))
    (inps : List CaptureInput) :
    ((camTrace cfg camera_id true K maxsize ⟨0, q0, fd0⟩ inps).map
        (fun o => (o.1.frame_count, o.2, dGet o.1.frame_dict camera_id)) =
      camExpected camera_id K 0 inps) ∧
    ((camTrace cfg camera_id true K maxsize ⟨0, q0, fd0⟩ inps).countP
        (fun o => o.2) = inps.length / K) ∧
    (camExpected camera_id K 0 inps =
      ((List.range' 1 inps.length).zip inps).map
        (fun ji => (ji.1, ji.1 % K == 0,
          some (if ji.1 % K == 0 then ji.2.annotated else ji.2.raw)))) := by
  refine ⟨camTrace_spec cfg camera_id K maxsize inps ⟨0, q0, fd0⟩, ?_, rfl⟩
  have hc := camTrace_detection_count cfg camera_id K maxsize inps ⟨0, q0, fd0⟩
  simpa using hc

theorem foldl_queuePut_full (cfg : Config) (camera_id : Nat) (t : ℚ)
    (tstr : String) (maxsize : Nat) (ds : List (Detection × Bool)) :
    ∀ q : List DetectionData, maxsize ≤ q.length →
      ds.foldl (fun q db => queuePut maxsize q
        (mkDetectionData cfg camera_id t tstr db.2 db.1)) q = q := by
  induction ds with
  | nil => intro q _; rfl
  | cons d ds ih =>
    intro q hq
    rw [List.foldl_cons, queuePut, if_neg (by omega)]
    exact ih q hq

/-- C6: every detection produced on a detection cycle (interesting or
not) is offered to the bounded alert queue with a non-blocking put; below
capacity the put appends, at capacity the put leaves the queue untouched
(the event is silently dropped, no exception escapes — the `queue.Full`
branch is a `pass`) and the queue size stays at capacity; a saturated
queue does not stop the worker from advancing its frame counter. -/
theorem C6_queue_nonblocking (cfg : Config) (camera_id K maxsize : Nat)
    (st : CamStreamState) (inp : CaptureInput) (q : List DetectionData)
    (d : DetectionData) :
    (q.length < maxsize → queuePut maxsize q d = q ++ [d]) ∧
    (maxsize ≤ q.length → queuePut maxsize q d = q) ∧
    (q.length = ALERT_QUEUE_MAXSIZE →
      queuePut ALERT_QUEUE_MAXSIZE q d = q ∧
      (queuePut ALERT_QUEUE_MAXSIZE q d).length = ALERT_QUEUE_MAXSIZE) ∧
    (((st.frame_count + 1) % K == 0) = true →
      (camFrameStep cfg camera_id true K maxsize st inp).1.queue =
        inp.detections.foldl
          (fun q db => queuePut maxsize q
            (mkDetectionData cfg camera_id inp.t inp.tstr db.2 db.1))
          st.queue) ∧
    (st.queue.length = maxsize →
      (camFrameStep cfg camera_id true K maxsize st inp).1.queue = st.queue ∧
      (camFrameStep cfg camera_id true K maxsize st inp).1.frame_count =
        st.frame_count + 1) := by
  refine ⟨?_, ?_, ?_, ?_, ?_⟩
  · intro h
    simp [queuePut, h]
  · intro h
    simp [queuePut, Nat.not_lt.mpr h]
  · intro h
    constructor
    · simp [queuePut, h]
    · simp [queuePut, h]
  · intro h
    simp [camFrameStep, h]
  · intro h
    cases hdet : ((st.frame_count + 1) % K == 0)
    · constructor <;> simp [camFrameStep, hdet]
    · constructor
      · simp only [camFrameStep, Bool.not_true, Bool.false_or, hdet, if_true]
        exact foldl_queuePut_full cfg camera_id inp.t inp.tstr maxsize
          inp.detections st.queue (le_of_eq h.symm)
      · simp [camFrameStep, hdet]

/-- C7: a detection is interesting iff it is a primary-threat class or
its class is the configured person class, with no dependence on the
security mode (the camera worker never reads the mode); an interesting
detection triggers a snapshot attempt whose name is derived from camera
id, timestamp string and class; on persistence failure the snapshot
reference is `none` while the event is still offered to the queue; and
for a non-primary-threat person detection the snapshot is attempted even
though Standard-mode dispatch would discard the event. -/
theorem C7_snapshot_mode_independent (cfg : Config) (camera_id : Nat)
    (t : ℚ) (tstr : String) (saveOk : Bool) (d : Detection)
    (q : List DetectionData) (maxsize : Nat) :
    (is_interesting cfg d =
      (d.is_primary_threat || (d.className == cfg.PERSON_CLASS_NAME))) ∧
    (is_interesting cfg d = true → saveOk = true →
      (mkDetectionData cfg camera_id t tstr saveOk d).snapshot_file =
        some (snapshot_filename camera_id tstr d.className)) ∧
    (saveOk = false →
      (mkDetectionData cfg camera_id t tstr saveOk d).snapshot_file = none) ∧
    (is_interesting cfg d = false →
      (mkDetectionData cfg camera_id t tstr saveOk d).snapshot_file = none) ∧
    (q.length < maxsize →
      queuePut maxsize q (mkDetectionData cfg camera_id t tstr false d) =
        q ++ [mkDetectionData cfg camera_id t tstr false d]) ∧
    (d.is_primary_threat = false → d.className = cfg.PERSON_CLASS_NAME →
      is_interesting cfg d = true ∧
      classifyAlert cfg false (mkDetectionData cfg camera_id t tstr saveOk d) =
        none ∧
      classifyAlert cfg true (mkDetectionData cfg camera_id t tstr saveOk d) =
        some "Motion Detected (Person)") := by
  refine ⟨rfl, ?_, ?_, ?_, ?_, ?_⟩
  · intro hint hok
    simp [mkDetectionData, hint, hok]
  · intro hok
    cases hint : is_interesting cfg d <;>
      simp [mkDetectionData, hint, hok]
  · intro hint
    simp [mkDetectionData, hint]
  · intro h
    simp [queuePut, h]
  · intro hpt hcls
    refine ⟨?_, ?_, ?_⟩
    · simp [is_interesting, hpt, hcls]
    · simp [classifyAlert, mkDetectionData, hpt]
    · simp [classifyAlert, mkDetectionData, hpt, hcls]

theorem camLoopRun_running (evs : List CamEvent) :
    ∀ st : CamLoopState, (camLoopRun st evs).1.running = st.running := by
  induction evs with
  | nil => intro st; rfl
  | cons e evs ih =>
    intro st
    cases e <;> simp [camLoopRun, camLoopStep, ih]

theorem camLoopRun_delays (evs : List CamEvent) :
    ∀ st : CamLoopState, (∀ e ∈ evs, isFailureEvent e = true) →
      (camLoopRun st evs).2 = evs.map failureDelay := by
  induction evs with
  | nil => intro st _; rfl
  | cons e evs ih =>
    intro st hfail
    have he := hfail e (List.mem_cons_self e evs)
    have hrest : ∀ e ∈ evs, isFailureEvent e = true :=
      fun x hx => hfail x (List.mem_cons_of_mem e hx)
    cases e <;> simp_all [camLoopRun, camLoopStep, failureDelay, isFailureEvent, ih _ hrest]

theorem camLoopRun_capOpen (evs : List CamEvent) :
    ∀ st : CamLoopState, evs ≠ [] → (∀ e ∈ evs, isFailureEvent e = true) →
      (camLoopRun st evs).1.capOpen = false := by
  induction evs with
  | nil => intro st hne _; exact absurd rfl hne
  | cons e evs ih =>
    intro st _ hfail
    have he := hfail e (List.mem_cons_self e evs)
    have hrest : ∀ e ∈ evs, isFailureEvent e = true :=
      fun x hx => hfail x (List.mem_cons_of_mem e hx)
    cases hevs : evs with
    | nil =>
      cases e <;> simp_all [camLoopRun, camLoopStep, isFailureEvent]
    | cons e2 evs2 =>
      subst hevs
      cases e <;>
        simp_all [camLoopRun, ih _ (by simp) hrest]

/-- C8: for a permanently failing source (every iteration outcome is a
failed open, a failed read, or an unexpected in-body exception), the
worker loop never terminates and never propagates an exception while the
running flag is true: after any number of iterations the flag is still
set, the capture resource is released (back to the disconnected state),
and each iteration sleeps the fixed retry delay for open/read failures
and twice that delay after an unexpected error. -/
theorem C8_permanent_failure_retry (st : CamLoopState) (evs : List CamEvent)
    (hrun : st.running = true)
    (hfail : ∀ e ∈ evs, isFailureEvent e = true) :
    ((camLoopRun st evs).1.running = true) ∧
    (∀ n : Nat, (camLoopRun st (evs.take n)).1.running = true) ∧
    (evs ≠ [] → (camLoopRun st evs).1.capOpen = false) ∧
    ((camLoopRun st evs).2 = evs.map failureDelay) ∧
    (failureDelay CamEvent.openFail = retry_delay ∧
     failureDelay CamEvent.readFail = retry_delay ∧
     failureDelay CamEvent.bodyError = retry_delay * 2) := by
  refine ⟨?_, ?_, ?_, ?_, rfl, rfl, rfl⟩
  · rw [camLoopRun_running]; exact hrun
  · intro n
    rw [camLoopRun_running]; exact hrun
  · intro hne
    exact camLoopRun_capOpen evs st hne hfail
  · exact camLoopRun_delays evs st hfail

/-- C9 counterexample: for a concrete primary-threat event that passes
classification and the dispatch throttle with the MQTT client connected,
the dispatcher publishes exactly the `mqtt_payload` of the alert record,
the alert record's dict carries a `timestamp` key, and the published
payload does NOT — so the published record does not carry all of the
record's fields. -/
theorem C9_counterexample_no_timestamp :
    ((processEvent defaultConfig true procInit (threatEvt 100)).publishedPayload =
      some (mqtt_payload (mkAlertData "Threat Detected" (threatEvt 100)))) ∧
    ("timestamp" ∈
      (alertDataDict (mkAlertData "Threat Detected" (threatEvt 100))).map
        Prod.fst) ∧
    ("timestamp" ∉
      (mqtt_payload (mkAlertData "Threat Detected" (threatEvt 100))).map
        Prod.fst) := by
  refine ⟨?_, ?_, ?_⟩
  · norm_num [processEvent, classifyAlert, threatEvt, tGet, tSet, histInsert,
      defaultConfig, procInit, List.find?]
  · simp [alertDataDict]
  · simp [mqtt_payload, alertDataDict]

/-- C9 (amended): for every event that passes classification and the
dispatch throttle, if the MQTT client is configured and connected the
dispatcher publishes the serialized alert record with the numeric
`timestamp` field deleted — all remaining fields (alert type, class,
confidence, formatted timestamp string, camera id, bbox, snapshot
reference) are carried with the record's values; publishing (or its
failure, swallowed by the source's `try/except`) never affects the
history insertion already performed or the subsequent email-throttle
evaluation. -/
theorem C9_publish_payload (cfg : Config) (st : ProcState)
    (d : DetectionData) (ty : String)
    (hclass : classifyAlert cfg st.is_full_security_mode d = some ty)
    (hthr : ¬ (d.timestamp - tGet st.last_alert_time_local (d.camera_id, d.className) <
        cfg.ALERT_INTERVAL_SECONDS)) :
    ((processEvent cfg true st d).publishedPayload =
      some (mqtt_payload (mkAlertData ty d))) ∧
    ((processEvent cfg false st d).publishedPayload = none) ∧
    (mqtt_payload (mkAlertData ty d) =
      [("alert_type", PyVal.s ty),
       ("class", PyVal.s d.className),
       ("confidence", PyVal.q d.confidence),
       ("timestamp_str", PyVal.s (timestampStr d.timestamp)),
       ("camera_id", PyVal.n d.camera_id),
       ("bbox", PyVal.arr d.bbox),
       ("snapshot_file", PyVal.opt d.snapshot_file)]) ∧
    (("timestamp", PyVal.q d.timestamp) ∈ alertDataDict (mkAlertData ty d)) ∧
    ((processEvent cfg true st d).state = (processEvent cfg false st d).state) ∧
    ((processEvent cfg true st d).insertedHistory =
      (processEvent cfg false st d).insertedHistory) ∧
    ((processEvent cfg true st d).emailTriggered =
      (processEvent cfg false st d).emailTriggered) := by
  refine ⟨?_, ?_, ?_, ?_, ?_, ?_, ?_⟩
  · simp only [processEvent, hclass]
    rw [if_neg hthr]
    split_ifs <;> rfl
  · simp only [processEvent, hclass]
    rw [if_neg hthr]
    split_ifs <;> first | rfl | simp_all
  · simp [mqtt_payload, alertDataDict, mkAlertData]
  · simp [alertDataDict, mkAlertData]
  · simp only [processEvent, hclass]
    rw [if_neg hthr]
    split_ifs <;> rfl
  · simp only [processEvent, hclass]
    rw [if_neg hthr]
    split_ifs <;> rfl
  · simp only [processEvent, hclass]
    rw [if_neg hthr]
    split_ifs <;> rfl

/-! ## Concrete-instance facts used to discharge hypotheses -/

theorem q101_lt_interval : (101 : ℚ) - 100 < 2 := by norm_num

theorem q100_not_throttled : ¬ ((100 : ℚ) - 0 < 2) := by norm_num

theorem q103_not_throttled : ¬ ((103 : ℚ) - 100 < 2) := by norm_num

theorem q100_email_ok : (60 : ℚ) ≤ 100 - 0 := by norm_num

theorem q103_email_window : (103 : ℚ) - 100 < 60 := by norm_num

/-- Witness for C1: a same-key event 1s after the last fired time is
discarded with the state untouched; a first event updates the last-fired
time to its own timestamp. -/
theorem C1_dispatch_throttle_witness :
    ((threatEvt 101).timestamp - tGet stKnife100.last_alert_time_local
        ((threatEvt 101).camera_id, (threatEvt 101).className) <
      defaultConfig.ALERT_INTERVAL_SECONDS) ∧
    (processEvent defaultConfig false stKnife100 (threatEvt 101) =
      ⟨stKnife100, false, none, false⟩) ∧
    ((processEvent defaultConfig false procInit
        (threatEvt 100)).state.last_alert_time_local =
      tSet procInit.last_alert_time_local
        ((threatEvt 100).camera_id, (threatEvt 100).className)
        (threatEvt 100).timestamp) :=
  ⟨q101_lt_interval,
   (C1_dispatch_throttle defaultConfig false stKnife100 (threatEvt 101)
      "Threat Detected" rfl).1 q101_lt_interval,
   ((C1_dispatch_throttle defaultConfig false procInit (threatEvt 100)
      "Threat Detected" rfl).2.1 q100_not_throttled).1⟩

/-- Witness for C2: concrete classifications and the Standard-mode
discard of a person event. -/
theorem C2_classification_witness :
    (classifyAlert defaultConfig procInit.is_full_security_mode
      (threatEvt 100) = some "Threat Detected") ∧
    (classifyAlert defaultConfig fullModeInit.is_full_security_mode
      (personEvt 100) = some "Motion Detected (Person)") ∧
    (processEvent defaultConfig false procInit (personEvt 100) =
      ⟨procInit, false, none, false⟩) :=
  ⟨(C2_classification defaultConfig false procInit (threatEvt 100)).1 rfl,
   (C2_classification defaultConfig false fullModeInit (personEvt 100)).2.1
     rfl rfl rfl,
   (C2_classification defaultConfig false procInit (personEvt 100)).2.2.1
     rfl (Or.inl rfl)⟩

/-- Witness for C3: a fresh event triggers an email; a same-key event 3s
later passes dispatch, enters history, but is email-suppressed. -/
theorem C3_email_throttle_witness :
    (defaultConfig.MAIL_ALERT_INTERVAL_SECONDS ≤
      (threatEvt 100).timestamp - tGet procInit.last_email_sent_time
        ((threatEvt 100).camera_id, (threatEvt 100).className)) ∧
    ((processEvent defaultConfig false procInit (threatEvt 100)).emailTriggered =
      true) ∧
    ((processEvent defaultConfig false stKnifeBoth100
        (threatEvt 103)).emailTriggered = false) ∧
    ((processEvent defaultConfig false stKnifeBoth100
        (threatEvt 103)).insertedHistory = true) :=
  ⟨q100_email_ok,
   ((C3_email_throttle defaultConfig false procInit (threatEvt 100)
      "Threat Detected" rfl q100_not_throttled).1 q100_email_ok).1,
   ((C3_email_throttle defaultConfig false stKnifeBoth100 (threatEvt 103)
      "Threat Detected" rfl q103_not_throttled).2.1 q103_email_window).1,
   ((C3_email_throttle defaultConfig false stKnifeBoth100 (threatEvt 103)
      "Threat Detected" rfl q103_not_throttled).2.1 q103_email_window).2.2⟩

/-- Witness for C5: the history invariant, the insertion shape for a
concrete event, and the capacity+5 fold at capacity 2 with seven records. -/
theorem C5_bounded_history_witness :
    ((processEvent defaultConfig false procInit
        (threatEvt 100)).state.alert_history.length ≤
      defaultConfig.MAX_ALERT_HISTORY) ∧
    ((processEvent defaultConfig false procInit (threatEvt 100)).state.alert_history =
      (mkAlertData "Threat Detected" (threatEvt 100) ::
        procInit.alert_history).take defaultConfig.MAX_ALERT_HISTORY) ∧
    ((demoAlerts.foldl (histInsert 2) []).length = 2) ∧
    (demoAlerts.foldl (histInsert 2) [] = (demoAlerts.drop 5).reverse) :=
  ⟨(C5_bounded_history defaultConfig false procInit (threatEvt 100)
      "Threat Detected" 2 demoAlerts).1 (by decide),
   (C5_bounded_history defaultConfig false procInit (threatEvt 100)
      "Threat Detected" 2 demoAlerts).2.1 rfl q100_not_throttled,
   ((C5_bounded_history defaultConfig false procInit (threatEvt 100)
      "Threat Detected" 2 demoAlerts).2.2.2 (by decide)).1,
   ((C5_bounded_history defaultConfig false procInit (threatEvt 100)
      "Threat Detected" 2 demoAlerts).2.2.2 (by decide)).2⟩

/-- Witness for C6: a put below capacity appends, a put at capacity 100
leaves the queue untouched at size 100, and a detection cycle with a full
queue still advances the frame counter. -/
theorem C6_queue_nonblocking_witness :
    (queuePut 1 [] (threatEvt 100) = [] ++ [threatEvt 100]) ∧
    (queuePut ALERT_QUEUE_MAXSIZE (List.replicate 100 (threatEvt 100))
        (threatEvt 101) = List.replicate 100 (threatEvt 100)) ∧
    ((queuePut ALERT_QUEUE_MAXSIZE (List.replicate 100 (threatEvt 100))
        (threatEvt 101)).length = ALERT_QUEUE_MAXSIZE) ∧
    ((camFrameStep defaultConfig 0 true 3 100
        ⟨0, List.replicate 100 (threatEvt 100), []⟩
        ⟨1, 101, [], 100, "ts"⟩).1.queue =
      List.replicate 100 (threatEvt 100)) ∧
    ((camFrameStep defaultConfig 0 true 3 100
        ⟨0, List.replicate 100 (threatEvt 100), []⟩
        ⟨1, 101, [], 100, "ts"⟩).1.frame_count = 1) :=
  ⟨(C6_queue_nonblocking defaultConfig 0 3 1 ⟨0, [], []⟩
      ⟨1, 101, [], 100, "ts"⟩ [] (threatEvt 100)).1 (by decide),
   ((C6_queue_nonblocking defaultConfig 0 3 100 ⟨0, [], []⟩
      ⟨1, 101, [], 100, "ts"⟩ (List.replicate 100 (threatEvt 100))
      (threatEvt 101)).2.2.1 (by decide)).1,
   ((C6_queue_nonblocking defaultConfig 0 3 100 ⟨0, [], []⟩
      ⟨1, 101, [], 100, "ts"⟩ (List.replicate 100 (threatEvt 100))
      (threatEvt 101)).2.2.1 (by decide)).2,
   ((C6_queue_nonblocking defaultConfig 0 3 100
      ⟨0, List.replicate 100 (threatEvt 100), []⟩
      ⟨1, 101, [], 100, "ts"⟩ [] (threatEvt 100)).2.2.2.2 (by decide)).1,
   ((C6_queue_nonblocking defaultConfig 0 3 100
      ⟨0, List.replicate 100 (threatEvt 100), []⟩
      ⟨1, 101, [], 100, "ts"⟩ [] (threatEvt 100)).2.2.2.2 (by decide)).2⟩

/-- Witness for C7: a person-class detection is interesting, its snapshot
name is derived from camera id, timestamp and class, a failed snapshot
yields `none` while the event is still appended to the queue, and the
same event is dispatch-discarded under Standard mode yet alertable under
Full mode. -/
theorem C7_snapshot_mode_independent_witness :
    (is_interesting defaultConfig personDet = true) ∧
    ((mkDetectionData defaultConfig 0 100 "ts" true personDet).snapshot_file =
      some (snapshot_filename 0 "ts" personDet.className)) ∧
    ((mkDetectionData defaultConfig 0 100 "ts" false personDet).snapshot_file =
      none) ∧
    (classifyAlert defaultConfig false
      (mkDetectionData defaultConfig 0 100 "ts" false personDet) = none) ∧
    (classifyAlert defaultConfig true
      (mkDetectionData defaultConfig 0 100 "ts" false personDet) =
      some "Motion Detected (Person)") ∧
    (queuePut 100 [] (mkDetectionData defaultConfig 0 100 "ts" false personDet) =
      [] ++ [mkDetectionData defaultConfig 0 100 "ts" false personDet]) :=
  ⟨((C7_snapshot_mode_independent defaultConfig 0 100 "ts" true personDet
      [] 100).2.2.2.2.2 rfl rfl).1,
   (C7_snapshot_mode_independent defaultConfig 0 100 "ts" true personDet
      [] 100).2.1 rfl rfl,
   (C7_snapshot_mode_independent defaultConfig 0 100 "ts" false personDet
      [] 100).2.2.1 rfl,
   ((C7_snapshot_mode_independent defaultConfig 0 100 "ts" false personDet
      [] 100).2.2.2.2.2 rfl rfl).2.1,
   ((C7_snapshot_mode_independent defaultConfig 0 100 "ts" false personDet
      [] 100).2.2.2.2.2 rfl rfl).2.2,
   (C7_snapshot_mode_independent defaultConfig 0 100 "ts" false personDet
      [] 100).2.2.2.2.1 (by decide)⟩

/-- Witness for C8: after a failed open, a failed read and an in-body
error, the worker is still running, disconnected, and slept 5s, 5s and
10s respectively. -/
theorem C8_permanent_failure_retry_witness :
    ((camLoopRun ⟨true, false⟩
        [CamEvent.openFail, CamEvent.readFail, CamEvent.bodyError]).1.running =
      true) ∧
    ((camLoopRun ⟨true, false⟩
        [CamEvent.openFail, CamEvent.readFail, CamEvent.bodyError]).1.capOpen =
      false) ∧
    ((camLoopRun ⟨true, false⟩
        [CamEvent.openFail, CamEvent.readFail, CamEvent.bodyError]).2 =
      [CamEvent.openFail, CamEvent.readFail, CamEvent.bodyError].map
        failureDelay) :=
  ⟨(C8_permanent_failure_retry ⟨true, false⟩
      [CamEvent.openFail, CamEvent.readFail, CamEvent.bodyError] rfl
      (by decide)).1,
   (C8_permanent_failure_retry ⟨true, false⟩
      [CamEvent.openFail, CamEvent.readFail, CamEvent.bodyError] rfl
      (by decide)).2.2.1 (by decide),
   (C8_permanent_failure_retry ⟨true, false⟩
      [CamEvent.openFail, CamEvent.readFail, CamEvent.bodyError] rfl
      (by decide)).2.2.2.1⟩

/-- Witness for C9 (amended): the concrete published payload and its
field list without the numeric timestamp. -/
theorem C9_publish_payload_witness :
    ((processEvent defaultConfig true procInit (threatEvt 100)).publishedPayload =
      some (mqtt_payload (mkAlertData "Threat Detected" (threatEvt 100)))) ∧
    (mqtt_payload (mkAlertData "Threat Detected" (threatEvt 100)) =
      [("alert_type", PyVal.s "Threat Detected"),
       ("class", PyVal.s (threatEvt 100).className),
       ("confidence", PyVal.q (threatEvt 100).confidence),
       ("timestamp_str", PyVal.s (timestampStr (threatEvt 100).timestamp)),
       ("camera_id", PyVal.n (threatEvt 100).camera_id),
       ("bbox", PyVal.arr (threatEvt 100).bbox),
       ("snapshot_file", PyVal.opt (threatEvt 100).snapshot_file)]) ∧
    ((processEvent defaultConfig true procInit (threatEvt 100)).state =
      (processEvent defaultConfig false procInit (threatEvt 100)).state) :=
  ⟨(C9_publish_payload defaultConfig procInit (threatEvt 100)
      "Threat Detected" rfl q100_not_throttled).1,
   (C9_publish_payload defaultConfig procInit (threatEvt 100)
      "Threat Detected" rfl q100_not_throttled).2.2.1,
   (C9_publish_payload defaultConfig procInit (threatEvt 100)
      "Threat Detected" rfl q100_not_throttled).2.2.2.2.1⟩

/-- Witness for C10: the email map is updated to t=100, a send with no
recipient returns false, and the same-key event at t=103 is still
email-suppressed. -/
theorem C10_email_time_not_rolled_back_witness :
    ((processEvent defaultConfig false procInit
        (threatEvt 100)).state.last_email_sent_time =
      tSet procInit.last_email_sent_time
        ((threatEvt 100).camera_id, (threatEvt 100).className)
        (threatEvt 100).timestamp) ∧
    (send_alert_email defaultConfig none
      (mkAlertData "Threat Detected" (threatEvt 100)) false = false) ∧
    ((processEvent defaultConfig false
        (processEvent defaultConfig false procInit (threatEvt 100)).state
        (threatEvt 103)).emailTriggered = false) :=
  ⟨(C10_email_time_not_rolled_back defaultConfig false procInit
      (threatEvt 100) (threatEvt 103) "Threat Detected"
      (mkAlertData "Threat Detected" (threatEvt 100)) none false rfl
      q100_not_throttled q100_email_ok).1,
   (C10_email_time_not_rolled_back defaultConfig false procInit
      (threatEvt 100) (threatEvt 103) "Threat Detected"
      (mkAlertData "Threat Detected" (threatEvt 100)) none false rfl
      q100_not_throttled q100_email_ok).2.2.1,
   (C10_email_time_not_rolled_back defaultConfig false procInit
      (threatEvt 100) (threatEvt 103) "Threat Detected"
      (mkAlertData "Threat Detected" (threatEvt 100)) none false rfl
      q100_not_throttled q100_email_ok).2.2.2.2.2 "Threat Detected" rfl rfl
      rfl q103_email_window⟩

end SentryVision
